import Mathlib

/-!
Shallow embedding of the log-analytics extraction pipeline
(`extractor/log_file_base.py` and the three extractors under
`extractor/rails/`).  Log lines are `List Char`; the regular expressions of
the source are modelled as explicit character-level matchers with the same
leftmost-search and greedy/lazy backtracking behaviour (restricted to ASCII
digit/letter/whitespace classes).
-/

/-- Whitespace class of the source's regex engine (the `\s` class):
space, tab, newline, carriage return, vertical tab, form feed. -/
def isPySpace (c : Char) : Bool :=
  c = ' ' || c = '\t' || c = '\n' || c = '\r' || c = Char.ofNat 11 || c = Char.ofNat 12

/-- After a `#`: one or more digits (greedy) that must be immediately
followed by `]`; returns the digit run.  Models the `\d{1,}\]` suffix of
`LogFileBase.PID_PATTERN`. -/
def digitsThenBracket : List Char → Option (List Char)
  | [] => none
  | c :: rest =>
    if c.isDigit then
      match digitsThenBracket rest with
      | some ds => some (c :: ds)
      | none => if rest.head? = some ']' then some [c] else none
    else none

/-- Match `#\d{1,}\]` at the head of the input and return capture group 1 of
`PID_PATTERN`, which is `#` together with the digits (the pattern is
`\[.*?\s(#\d{1,})\]`, so the group includes the leading hash). -/
def matchHashDigits : List Char → Option (List Char)
  | [] => none
  | c :: rest =>
    if c = '#' then (digitsThenBracket rest).map (fun ds => '#' :: ds) else none

/-- Scan after the opening `[`: the lazy `.*?\s` part of `PID_PATTERN`.
At each character, first try to read it as the `\s` followed by the
`#digits]` tail; otherwise let the lazy star consume it (the `.` class
excludes newline). -/
def pidLazyScan : List Char → Option (List Char)
  | [] => none
  | c :: rest =>
    match (if isPySpace c then matchHashDigits rest else none) with
    | some g => some g
    | none => if c = '\n' then none else pidLazyScan rest

/-- Model of `PID_PATTERN.search(line).group(1)`: leftmost occurrence of
`\[.*?\s(#\d{1,})\]`, returning capture group 1 (hash included), or `none`
when the line has no such token. -/
def pidSearch : List Char → Option (List Char)
  | [] => none
  | c :: rest =>
    match (if c = '[' then pidLazyScan rest else none) with
    | some g => some g
    | none => pidSearch rest

/-- Substring containment, modelling the source's `'TAG' in log_line`. -/
def containsSub (pat : List Char) : List Char → Bool
  | [] => pat.isPrefixOf []
  | c :: rest => pat.isPrefixOf (c :: rest) || containsSub pat rest

/-- Literal `Controller#` followed by `[^\s]+` (greedy, at least one
non-whitespace character); the tail of `Controller.PATTERN`. -/
def ctrlTail (cs : List Char) : Option (List Char) :=
  if ("Controller#".toList).isPrefixOf cs then
    let body := (cs.drop 11).takeWhile (fun c => !(isPySpace c))
    if body.isEmpty then none else some ("Controller#".toList ++ body)
  else none

/-- Match `[A-Za-z]*Controller\#[^\s]+` at the head of the input: the greedy
letter star prefers consuming a letter and backtracks to the literal. -/
def ctrlFrom : List Char → Option (List Char)
  | [] => none
  | c :: rest =>
    if c.isAlpha then
      match ctrlFrom rest with
      | some m => some (c :: m)
      | none => ctrlTail (c :: rest)
    else ctrlTail (c :: rest)

/-- Model of `Controller.PATTERN.search(line).group(0)`: leftmost match of
`[A-Za-z]*Controller\#[^\s]+`. -/
def ctrlSearch : List Char → Option (List Char)
  | [] => none
  | c :: rest =>
    match ctrlFrom (c :: rest) with
    | some m => some m
    | none => ctrlSearch rest

/-- Match `(\d+)(?:\.(\d+))?ms` at the head of the input, returning the two
capture groups (integer digits, optional fraction digits). -/
def msNumAt (cs : List Char) : Option (List Char × Option (List Char)) :=
  let ds := cs.takeWhile Char.isDigit
  if ds.isEmpty then none
  else
    match cs.drop ds.length with
    | '.' :: r2 =>
      let fs := r2.takeWhile Char.isDigit
      if fs.isEmpty then none
      else if ("ms".toList).isPrefixOf (r2.drop fs.length) then some (ds, some fs)
      else none
    | rest => if ("ms".toList).isPrefixOf rest then some (ds, none) else none

/-- Leftmost match of `<lit>(\d+)(?:\.(\d+))?ms`, for the literal prefixes
`Views: ` and `ActiveRecord: ` of `Metrics.VIEWS_PATTERN` and
`Metrics.DURATION_PATTERN`; returns the capture groups. -/
def litNumSearch (lit : List Char) : List Char → Option (List Char × Option (List Char))
  | [] => none
  | c :: rest =>
    match (if lit.isPrefixOf (c :: rest) then msNumAt ((c :: rest).drop lit.length) else none) with
    | some r => some r
    | none => litNumSearch lit rest

/-- Model of `Metrics.ALLOCATION_PATTERN.search`: leftmost match of
`Allocations: (\d+)`, returning the digit group. -/
def allocSearch : List Char → Option (List Char)
  | [] => none
  | c :: rest =>
    match (if ("Allocations: ".toList).isPrefixOf (c :: rest) then
             (let ds := ((c :: rest).drop 13).takeWhile Char.isDigit
              if ds.isEmpty then none else some ds)
           else none) with
    | some r => some r
    | none => allocSearch rest

/-- Value of a digit string (most significant digit first). -/
def digitsVal (ds : List Char) : Nat :=
  ds.foldl (fun acc c => 10 * acc + (c.toNat - '0'.toNat)) 0

/-- Value denoted by a decimal numeral string `I.F`, split at the first dot:
models the exact-decimal constructor applied to such a string. -/
def decimalStringVal (s : List Char) : ℚ :=
  let intPart := s.takeWhile (fun c => c != '.')
  let fracPart := (s.drop intPart.length).drop 1
  (digitsVal intPart : ℚ) + (digitsVal fracPart : ℚ) / 10 ^ fracPart.length

/-- Model of `Metrics.__extract_decimal`: builds the string
`{group(1)}.{group(2) or '0'}` and takes its exact decimal value. -/
def extract_decimal (g1 : List Char) (g2 : Option (List Char)) : ℚ :=
  decimalStringVal (g1 ++ '.' :: (g2.getD ['0']))

/-- Record shape of `extractor/rails/controller.py`'s `DataStruct`
(all fields default to absent, as in the dataclass). -/
structure ControllerStruct where
  pid : Option (List Char) := none
  controller_name : Option (List Char) := none
deriving DecidableEq, Repr

/-- Record shape of `extractor/rails/metrics.py`'s `DataStruct`. -/
structure MetricsStruct where
  pid : Option (List Char) := none
  views : Option ℚ := none
  duration : Option ℚ := none
  allocation : Option Nat := none
deriving DecidableEq, Repr

/-- Record shape of `extractor/rails/model.py`'s `DataStruct`. -/
structure ModelStruct where
  pid : Option (List Char) := none
  class_name : Option (List Char) := none
deriving DecidableEq, Repr

/-- Model of `Controller.extract_additional_data`. -/
def controllerExtract (line : List Char) : Option ControllerStruct :=
  match ctrlSearch line with
  | none => none
  | some m => some { controller_name := some m }

/-- Assignment `additional_data.pid = pid_match.group(1)` for `Controller`. -/
def controllerSetPid (r : ControllerStruct) (p : List Char) : ControllerStruct :=
  { r with pid := some p }

/-- Model of `Metrics.extract_additional_data`. -/
def metricsExtract (line : List Char) : Option MetricsStruct :=
  if containsSub ("INFO".toList) line then
    match litNumSearch ("Views: ".toList) line with
    | none => none
    | some v =>
      some { views := some (extract_decimal v.1 v.2),
             duration := (litNumSearch ("ActiveRecord: ".toList) line).map
               (fun d => extract_decimal d.1 d.2),
             allocation := (allocSearch line).map digitsVal }
  else none

/-- Assignment `additional_data.pid = pid_match.group(1)` for `Metrics`. -/
def metricsSetPid (r : MetricsStruct) (p : List Char) : MetricsStruct :=
  { r with pid := some p }

/-- The always-excluded entity names of `Model.EXCLUDE_CLASS_NAMES`. -/
def EXCLUDE_CLASS_NAMES : List (List Char) :=
  ["ArInternalMetadata".toList, "SchemaMigration".toList]

/-- Regex escaping; the identity on the alphanumeric CamelCase names this
extractor receives from `__to_camel_case_with_purlize`. -/
def reEscape (s : List Char) : List Char := s

/-- Model of `Model.__modelname_into_regexp` up to compilation: escape each
injected entity name, drop the excluded ones, keep the alternation as the
list of alternatives to be joined with `|`. -/
def modelname_into_regexp (tableNames : List (List Char)) : List (List Char) :=
  (tableNames.map reEscape).filter (fun el => !(el ∈ EXCLUDE_CLASS_NAMES))

/-- Compiling `'|'.join(filtered)`: joining the empty list yields the empty
pattern, which is the single empty alternative; otherwise each element is
one literal alternative. -/
def compiledAlternatives (filtered : List (List Char)) : List (List Char) :=
  if filtered.isEmpty then [[]] else filtered

/-- Try the alternatives in order at one position (the regex alternation
prefers the leftmost alternative). -/
def altMatchAt (alts : List (List Char)) (s : List Char) : Option (List Char) :=
  alts.find? (fun a => a.isPrefixOf s)

/-- Leftmost match of an alternation of literals (`PATTERN.search` of the
`Model` extractor); the position at the end of the string is included, as
the empty pattern matches there too. -/
def altSearch (alts : List (List Char)) : List Char → Option (List Char)
  | [] => altMatchAt alts []
  | c :: rest =>
    match altMatchAt alts (c :: rest) with
    | some m => some m
    | none => altSearch alts rest

/-- Model of `Model.extract_additional_data`, parameterized by the entity
names injected at construction (the database round trip is external). -/
def modelExtract (tableNames : List (List Char)) (line : List Char) : Option ModelStruct :=
  if containsSub ("DEBUG".toList) line then
    match altSearch (compiledAlternatives (modelname_into_regexp tableNames)) line with
    | none => none
    | some m => some { class_name := some m }
  else none

/-- Assignment `additional_data.pid = pid_match.group(1)` for `Model`. -/
def modelSetPid (r : ModelStruct) (p : List Char) : ModelStruct :=
  { r with pid := some p }

/-- Model of `LogFileBase._init_entity`: first the PID correlation (a line
without the token is discarded before any extractor logic contributes a
record), then the extractor's own matching, then the pid assignment. -/
def init_entity {α : Type} (extract : List Char → Option α)
    (setPid : α → List Char → α) (line : List Char) : Option α :=
  match pidSearch line with
  | none => none
  | some p =>
    match extract line with
    | none => none
    | some a => some (setPid a p)

/-- Logging calls made by the engine, in emission order. -/
inductive LogEvent where
  | errorDirMissing : LogEvent
  | infoStartFile : List Char → LogEvent
  | warnNoData : List Char → LogEvent
  | errorOpenFile : List Char → LogEvent
  | warnNoExport : LogEvent
  | infoExported : List Char → LogEvent
deriving DecidableEq, Repr

/-- One directory entry: a file name together with the outcome of opening
it — its lines, or an I/O fault raised by `open`. -/
abbrev DirEntry := List Char × Except Unit (List (List Char))

/-- Checks that a directory entry opens without an I/O fault. -/
def entryOk (e : DirEntry) : Bool :=
  match e.2 with
  | Except.ok _ => true
  | Except.error _ => false

/-- The record-accumulating part of `LogFileBase.__convert_log_into_array`:
each line becomes at most one record via `_init_entity`, appended to
`data_list` in line order. -/
def convert_log_into_array {α : Type} (extract : List Char → Option α)
    (setPid : α → List Char → α) (dataList : List α) (lines : List (List Char)) : List α :=
  dataList ++ lines.filterMap (init_entity extract setPid)

/-- State after scanning some files: the accumulated `data_list`, the log
events emitted so far, and whether an exception propagated. -/
structure ScanState (α : Type) where
  data : List α
  events : List LogEvent
  raised : Bool
deriving DecidableEq, Repr

/-- The file loop of `export_tsv` over the selected entries: per file, the
start is logged, an open fault is logged and re-raised (aborting the loop),
and otherwise the lines are folded into `data_list`; the no-data warning
fires when the whole accumulated `data_list` is empty after the file. -/
def processFiles {α : Type} (extract : List Char → Option α)
    (setPid : α → List Char → α) : List α → List DirEntry → ScanState α
  | dataList, [] => ⟨dataList, [], false⟩
  | dataList, (name, Except.error _) :: _ =>
    ⟨dataList, [LogEvent.infoStartFile name, LogEvent.errorOpenFile name], true⟩
  | dataList, (name, Except.ok lines) :: rest =>
    let newData := convert_log_into_array extract setPid dataList lines
    let fileEvents := LogEvent.infoStartFile name ::
      (if newData.isEmpty then [LogEvent.warnNoData name] else [])
    let r := processFiles extract setPid newData rest
    ⟨r.data, fileEvents ++ r.events, r.raised⟩

/-- Result of one `export_tsv` call: emitted log events, the written file
(name and rows) if any, whether an exception propagated to the caller, and
the final `data_list`. -/
structure ExportOutcome (α : Type) where
  events : List LogEvent
  output : Option (List Char × List α)
  raised : Bool
  finalData : List α
deriving DecidableEq, Repr

/-- Model of `LogFileBase.export_tsv`: a missing logs directory is logged
and the call returns; otherwise the name-filtered entries are scanned in
listing order, an open fault propagates with no file written, and at the
end the TSV named after the lowercased class name is written exactly when
`data_list` is non-empty (else a warning). -/
def export_tsv {α : Type} (className : List Char) (extract : List Char → Option α)
    (setPid : α → List Char → α) (logsDir : Option (List DirEntry))
    (namePat : List Char → Bool) (dataList : List α) : ExportOutcome α :=
  match logsDir with
  | none => ⟨[LogEvent.errorDirMissing], none, false, dataList⟩
  | some entries =>
    let selected := entries.filter (fun e => namePat e.1)
    let s := processFiles extract setPid dataList selected
    if s.raised then ⟨s.events, none, true, s.data⟩
    else if s.data.isEmpty then ⟨s.events ++ [LogEvent.warnNoExport], none, false, s.data⟩
    else
      let fileName := className.map Char.toLower ++ ".tsv".toList
      ⟨s.events ++ [LogEvent.infoExported fileName], some (fileName, s.data), false, s.data⟩

/-- Byte content of the exported table: header row then one row per record,
in accumulation order, rows separated by newlines. -/
def tsvContent {α : Type} (header : List Char) (serialize : α → List Char)
    (rows : List α) : List Char :=
  List.intercalate ['\n'] (header :: rows.map serialize)

/-- Rendering of one absent-or-present string cell. -/
def showCell : Option (List Char) → List Char
  | none => []
  | some s => s

/-- One TSV row of the Controller table (`pid` column first, as the
dataclass declares it). -/
def controllerRow (r : ControllerStruct) : List Char :=
  showCell r.pid ++ '\t' :: showCell r.controller_name

/-- Header row of the Controller table. -/
def controllerHeader : List Char := "pid\tcontroller_name".toList

/-! ### Structural lemmas about the PID correlator -/

/-- A successful `digitsThenBracket` run is a non-empty digit string. -/
lemma digitsThenBracket_shape :
    ∀ (cs ds : List Char), digitsThenBracket cs = some ds →
      ds ≠ [] ∧ ds.all Char.isDigit = true := by
  intro cs
  induction cs with
  | nil => intro ds h; exact absurd h (by simp [digitsThenBracket])
  | cons c rest ih =>
    intro ds h
    unfold digitsThenBracket at h
    by_cases hc : c.isDigit
    · rw [if_pos hc] at h
      cases hrec : digitsThenBracket rest with
      | some ds2 =>
        rw [hrec] at h
        injection h with h'
        obtain ⟨hne, hall⟩ := ih ds2 hrec
        subst h'
        exact ⟨by simp, by simp [hc, hall]⟩
      | none =>
        rw [hrec] at h
        by_cases hh : rest.head? = some ']'
        · rw [if_pos hh] at h
          injection h with h'
          subst h'
          exact ⟨by simp, by simp [hc]⟩
        · rw [if_neg hh] at h
          exact absurd h (by simp)
    · rw [if_neg hc] at h
      exact absurd h (by simp)

/-- A successful `matchHashDigits` result is `#` followed by non-empty
digits. -/
lemma matchHashDigits_shape (cs g : List Char) (h : matchHashDigits cs = some g) :
    ∃ ds, g = '#' :: ds ∧ ds ≠ [] ∧ ds.all Char.isDigit = true := by
  cases cs with
  | nil => exact absurd h (by simp [matchHashDigits])
  | cons c rest =>
    simp only [matchHashDigits] at h
    by_cases hc : c = '#'
    · rw [if_pos hc] at h
      rw [Option.map_eq_some'] at h
      obtain ⟨ds, hds, hg⟩ := h
      obtain ⟨hne, hall⟩ := digitsThenBracket_shape rest ds hds
      exact ⟨ds, hg.symm, hne, hall⟩
    · rw [if_neg hc] at h
      exact absurd h (by simp)

/-- Whatever `pidLazyScan` returns has the `#digits` shape. -/
lemma pidLazyScan_shape :
    ∀ (cs g : List Char), pidLazyScan cs = some g →
      ∃ ds, g = '#' :: ds ∧ ds ≠ [] ∧ ds.all Char.isDigit = true := by
  intro cs
  induction cs with
  | nil => intro g h; exact absurd h (by simp [pidLazyScan])
  | cons c rest ih =>
    intro g h
    unfold pidLazyScan at h
    by_cases hs : isPySpace c
    · rw [if_pos hs] at h
      cases hm : matchHashDigits rest with
      | some g2 =>
        rw [hm] at h
        injection h with h'
        exact h' ▸ matchHashDigits_shape rest g2 hm
      | none =>
        rw [hm] at h
        by_cases hn : c = '\n'
        · rw [if_pos hn] at h; exact absurd h (by simp)
        · rw [if_neg hn] at h; exact ih g h
    · rw [if_neg hs] at h
      by_cases hn : c = '\n'
      · rw [if_pos hn] at h; exact absurd h (by simp)
      · rw [if_neg hn] at h; exact ih g h

/-- Whatever the PID correlator returns is the hash together with a
non-empty digit run: the capture group of `PID_PATTERN` keeps the `#`. -/
lemma pidSearch_shape :
    ∀ (line g : List Char), pidSearch line = some g →
      ∃ ds, g = '#' :: ds ∧ ds ≠ [] ∧ ds.all Char.isDigit = true := by
  intro line
  induction line with
  | nil => intro g h; exact absurd h (by simp [pidSearch])
  | cons c rest ih =>
    intro g h
    unfold pidSearch at h
    by_cases hc : c = '['
    · rw [if_pos hc] at h
      cases hm : pidLazyScan rest with
      | some g2 =>
        rw [hm] at h
        injection h with h'
        exact h' ▸ pidLazyScan_shape rest g2 hm
      | none => rw [hm] at h; exact ih g h
    · rw [if_neg hc] at h
      exact ih g h

/-! ### Claims about the Process-ID Correlator -/

/-- Claim C1 is false as stated: on the line `"[App #42] HomeController#index"`,
which matches the Controller pattern, the produced record's pid field is the
string `"#42"` (the capture group of `PID_PATTERN` includes the leading
hash), not the bare numeral `"42"`. -/
theorem pid_keeps_hash_counterexample :
    init_entity controllerExtract controllerSetPid
        ("[App #42] HomeController#index".toList)
      = some { pid := some ("#42".toList),
               controller_name := some ("HomeController#index".toList) }
    ∧ "#42".toList ≠ "42".toList := by
  constructor
  · decide
  · decide

/-- Claim C1 (amended): the Process-ID Correlator returns the hash-prefixed
token — `#` followed by the non-empty digit run — and a line that also
matches the Controller pattern yields a record whose pid field is exactly
that token. -/
theorem pid_token_is_hash_digits (line p : List Char)
    (hp : pidSearch line = some p) :
    (∃ ds, p = '#' :: ds ∧ ds ≠ [] ∧ ds.all Char.isDigit = true) ∧
    ∀ c, ctrlSearch line = some c →
      init_entity controllerExtract controllerSetPid line
        = some { pid := some p, controller_name := some c } := by
  refine ⟨pidSearch_shape line p hp, ?_⟩
  intro c hc
  simp [init_entity, hp, controllerExtract, hc, controllerSetPid]

/-- Concrete instance of the amended C1 on the Scenario A line. -/
theorem pid_token_is_hash_digits_witness :
    (∃ ds, "#42".toList = '#' :: ds ∧ ds ≠ [] ∧ ds.all Char.isDigit = true) ∧
    ∀ c, ctrlSearch ("[App #42] HomeController#index".toList) = some c →
      init_entity controllerExtract controllerSetPid
          ("[App #42] HomeController#index".toList)
        = some { pid := some ("#42".toList), controller_name := some c } :=
  pid_token_is_hash_digits ("[App #42] HomeController#index".toList)
    ("#42".toList) (by decide)

/-- Claim C2: a line in which `PID_PATTERN` finds no match produces no
record and leaves the accumulated `data_list` unchanged, for every
extractor (in particular for one whose own pattern does match the line). -/
theorem no_pid_no_record {α : Type} (extract : List Char → Option α)
    (setPid : α → List Char → α) (lines : List (List Char))
    (h : ∀ l ∈ lines, pidSearch l = none) (dataList : List α)
    (name : List Char) :
    (∀ l ∈ lines, init_entity extract setPid l = none) ∧
    (processFiles extract setPid dataList [(name, Except.ok lines)]).data
      = dataList := by
  have h1 : ∀ l ∈ lines, init_entity extract setPid l = none := by
    intro l hl
    simp [init_entity, h l hl]
  refine ⟨h1, ?_⟩
  have h2 : lines.filterMap (init_entity extract setPid) = [] := by
    rw [List.filterMap_eq_nil_iff]
    exact h1
  simp [processFiles, convert_log_into_array, h2]

/-- Concrete instance of C2: the line matches the Controller pattern but
carries no PID token, so nothing is appended. -/
theorem no_pid_no_record_witness :
    (∀ l ∈ [("no pid HomeController#index".toList)],
        init_entity controllerExtract controllerSetPid l = none) ∧
    (processFiles controllerExtract controllerSetPid
        ([] : List ControllerStruct)
        [("production.log.000001".toList,
          Except.ok [("no pid HomeController#index".toList)])]).data
      = [] :=
  no_pid_no_record controllerExtract controllerSetPid
    [("no pid HomeController#index".toList)] (by decide) []
    ("production.log.000001".toList)

/-! ### Claims about the Metrics variant -/

/-- Claim C3: on an informational line, the Views sub-pattern is mandatory
(no Views match means no record, whatever the other sub-patterns do), and
when it matches, the duration and allocation fields are each present in the
record exactly when their own sub-pattern matched. -/
theorem metrics_views_mandatory_optionals_independent (line : List Char)
    (hinfo : containsSub ("INFO".toList) line = true) :
    (litNumSearch ("Views: ".toList) line = none → metricsExtract line = none) ∧
    (∀ v, litNumSearch ("Views: ".toList) line = some v →
      ∃ r, metricsExtract line = some r ∧
        r.views = some (extract_decimal v.1 v.2) ∧
        r.duration.isSome = (litNumSearch ("ActiveRecord: ".toList) line).isSome ∧
        r.allocation.isSome = (allocSearch line).isSome) := by
  constructor
  · intro hv
    unfold metricsExtract
    rw [hinfo, hv]
    rfl
  · intro v hv
    refine ⟨{ views := some (extract_decimal v.1 v.2),
              duration := (litNumSearch ("ActiveRecord: ".toList) line).map
                (fun d => extract_decimal d.1 d.2),
              allocation := (allocSearch line).map digitsVal },
            ?_, rfl, ?_, ?_⟩
    · unfold metricsExtract
      rw [hinfo, hv]
      rfl
    · cases litNumSearch ("ActiveRecord: ".toList) line <;> rfl
    · cases allocSearch line <;> rfl

/-- Concrete instance of C3 on the Scenario C line: Views matches, the
other two sub-patterns do not, and the record keeps views while duration
and allocation stay absent. -/
theorem metrics_views_mandatory_witness :
    ∃ r, metricsExtract ("INFO Completed 200 OK Views: 5ms [Job #7]".toList)
        = some r ∧
      r.views = some (extract_decimal ("5".toList, (none : Option (List Char))).1
        ("5".toList, (none : Option (List Char))).2) ∧
      r.duration.isSome
        = (litNumSearch ("ActiveRecord: ".toList)
            ("INFO Completed 200 OK Views: 5ms [Job #7]".toList)).isSome ∧
      r.allocation.isSome
        = (allocSearch ("INFO Completed 200 OK Views: 5ms [Job #7]".toList)).isSome :=
  (metrics_views_mandatory_optionals_independent
      ("INFO Completed 200 OK Views: 5ms [Job #7]".toList) (by decide)).2
    ("5".toList, none) (by decide)

/-- Every character of the first block satisfies the predicate, so the
block passes through `takeWhile` of an append unchanged. -/
lemma takeWhile_append_all {p : Char → Bool} :
    ∀ (l1 l2 : List Char), (∀ c ∈ l1, p c = true) →
      (l1 ++ l2).takeWhile p = l1 ++ l2.takeWhile p := by
  intro l1
  induction l1 with
  | nil => intro l2 _; simp
  | cons c rest ih =>
    intro l2 h
    have hc : p c = true := h c (by simp)
    simp only [List.cons_append, List.takeWhile_cons, hc, if_true]
    rw [ih l2 (fun x hx => h x (by simp [hx]))]

/-- Splitting the formatted numeral `g1.fr` at its dot recovers the parts. -/
lemma decimalStringVal_split (g1 : List Char) (h1 : ∀ c ∈ g1, c ≠ '.') :
    ∀ (fr : List Char),
      decimalStringVal (g1 ++ '.' :: fr)
        = (digitsVal g1 : ℚ) + (digitsVal fr : ℚ) / 10 ^ fr.length := by
  intro fr
  have hp : ∀ c ∈ g1, (c != '.') = true := by
    intro c hc
    simpa using h1 c hc
  unfold decimalStringVal
  rw [takeWhile_append_all g1 ('.' :: fr) hp]
  simp only [List.takeWhile_cons]
  norm_num

/-- Claim C4: the extracted millisecond values are exact decimals — with
fraction digits the value is `intpart + fracpart / 10 ^ |fracpart|`, with no
fraction the missing group defaults to `0` and the value is the integer
part; on the Scenario B line the record holds exactly `25/2`, `3` and
`400`. -/
theorem extract_decimal_exact (g1 g2 : List Char) (h1 : ∀ c ∈ g1, c ≠ '.') :
    extract_decimal g1 (some g2)
      = (digitsVal g1 : ℚ) + (digitsVal g2 : ℚ) / 10 ^ g2.length ∧
    extract_decimal g1 none = (digitsVal g1 : ℚ) ∧
    metricsExtract
        ("INFO Views: 12.5ms ActiveRecord: 3ms Allocations: 400 [Job #7]".toList)
      = some { views := some ((25 : ℚ) / 2), duration := some 3,
               allocation := some 400 } := by
  have hnone : ∀ (gs : List Char), (∀ c ∈ gs, c ≠ '.') →
      extract_decimal gs none = (digitsVal gs : ℚ) := by
    intro gs hgs
    unfold extract_decimal
    rw [show ((none : Option (List Char)).getD ['0']) = ['0'] from rfl,
        decimalStringVal_split gs hgs ['0'],
        show digitsVal ['0'] = 0 from by decide]
    norm_num
  refine ⟨decimalStringVal_split g1 h1 g2, hnone g1 h1, ?_⟩
  have h12 : extract_decimal ("12".toList) (some ("5".toList)) = 25 / 2 := by
    unfold extract_decimal
    rw [show ((some ("5".toList)).getD ['0']) = "5".toList from rfl,
        decimalStringVal_split ("12".toList) (by decide) ("5".toList),
        show digitsVal ("12".toList) = 12 from by decide,
        show digitsVal ("5".toList) = 5 from by decide,
        show ("5".toList).length = 1 from rfl]
    norm_num
  have h3 : extract_decimal ("3".toList) none = 3 := by
    rw [hnone ("3".toList) (by decide), show digitsVal ("3".toList) = 3 from by decide]
    norm_num
  have hI : containsSub ("INFO".toList)
      ("INFO Views: 12.5ms ActiveRecord: 3ms Allocations: 400 [Job #7]".toList)
      = true := by decide
  have hV : litNumSearch ("Views: ".toList)
      ("INFO Views: 12.5ms ActiveRecord: 3ms Allocations: 400 [Job #7]".toList)
      = some ("12".toList, some ("5".toList)) := by decide
  have hD : litNumSearch ("ActiveRecord: ".toList)
      ("INFO Views: 12.5ms ActiveRecord: 3ms Allocations: 400 [Job #7]".toList)
      = some ("3".toList, (none : Option (List Char))) := by decide
  have hA : allocSearch
      ("INFO Views: 12.5ms ActiveRecord: 3ms Allocations: 400 [Job #7]".toList)
      = some ("400".toList) := by decide
  unfold metricsExtract
  rw [hI, hV, hD, hA]
  simp only [Option.map_some']
  rw [h12, h3, show digitsVal ("400".toList) = 400 from by decide]
  simp

/-- Concrete instance of C4 at the groups of `Views: 12.5ms`. -/
theorem extract_decimal_exact_witness :
    extract_decimal ("12".toList) (some ("5".toList))
      = (digitsVal ("12".toList) : ℚ)
        + (digitsVal ("5".toList) : ℚ) / 10 ^ ("5".toList).length ∧
    extract_decimal ("12".toList) none = (digitsVal ("12".toList) : ℚ) ∧
    metricsExtract
        ("INFO Views: 12.5ms ActiveRecord: 3ms Allocations: 400 [Job #7]".toList)
      = some { views := some ((25 : ℚ) / 2), duration := some 3,
               allocation := some 400 } :=
  extract_decimal_exact ("12".toList) ("5".toList) (by decide)

/-! ### Claims about the engine's warning and error handling -/

/-- Claim C5 is false as stated: with a first file contributing one record
and a second matching file yielding zero records, the engine emits no
warning for the second file — the emptiness check inspects the whole
accumulated `data_list`, not the file's own yield — although the second
file is processed. -/
theorem zero_yield_warning_counterexample :
    (export_tsv ("Controller".toList) controllerExtract controllerSetPid
        (some [("production.log.000001".toList,
                Except.ok ["[App #1] HomeController#index".toList]),
               ("production.log.000002".toList,
                Except.ok ["line with no token".toList])])
        (fun _ => true) []).finalData.length = 1 ∧
    LogEvent.infoStartFile ("production.log.000002".toList) ∈
      (export_tsv ("Controller".toList) controllerExtract controllerSetPid
        (some [("production.log.000001".toList,
                Except.ok ["[App #1] HomeController#index".toList]),
               ("production.log.000002".toList,
                Except.ok ["line with no token".toList])])
        (fun _ => true) []).events ∧
    LogEvent.warnNoData ("production.log.000002".toList) ∉
      (export_tsv ("Controller".toList) controllerExtract controllerSetPid
        (some [("production.log.000001".toList,
                Except.ok ["[App #1] HomeController#index".toList]),
               ("production.log.000002".toList,
                Except.ok ["line with no token".toList])])
        (fun _ => true) []).events := by
  refine ⟨by decide, by decide, by decide⟩

/-- Claim C5 (amended): a selected file that yields zero records triggers
the per-file warning only when the whole accumulated record set is still
empty after it; when earlier files already contributed records, the file
adds nothing, no warning is emitted for it, and the remaining files are
processed exactly as they would have been. -/
theorem zero_yield_warning_needs_empty_accumulation {α : Type}
    (extract : List Char → Option α) (setPid : α → List Char → α)
    (dataList : List α) (name : List Char) (lines : List (List Char))
    (rest : List DirEntry)
    (hzero : lines.filterMap (init_entity extract setPid) = [])
    (hprev : dataList ≠ []) :
    (processFiles extract setPid dataList ((name, Except.ok lines) :: rest)).data
      = (processFiles extract setPid dataList rest).data ∧
    (processFiles extract setPid dataList ((name, Except.ok lines) :: rest)).events
      = LogEvent.infoStartFile name
          :: (processFiles extract setPid dataList rest).events := by
  have hnew : convert_log_into_array extract setPid dataList lines = dataList := by
    simp [convert_log_into_array, hzero]
  have hne : dataList.isEmpty = false := by
    cases dataList with
    | nil => exact absurd rfl hprev
    | cons a l => rfl
  constructor
  · simp [processFiles, hnew]
  · simp [processFiles, hnew, hne]

/-- Concrete instance of the amended C5: one record already accumulated, a
zero-yield file, one further file in the listing. -/
theorem zero_yield_warning_needs_empty_accumulation_witness :
    (processFiles controllerExtract controllerSetPid
        [({} : ControllerStruct)]
        [("production.log.000002".toList, Except.ok ["line with no token".toList]),
         ("production.log.000003".toList, Except.ok [])]).data
      = (processFiles controllerExtract controllerSetPid
          [({} : ControllerStruct)]
          [("production.log.000003".toList, Except.ok [])]).data ∧
    (processFiles controllerExtract controllerSetPid
        [({} : ControllerStruct)]
        [("production.log.000002".toList, Except.ok ["line with no token".toList]),
         ("production.log.000003".toList, Except.ok [])]).events
      = LogEvent.infoStartFile ("production.log.000002".toList)
          :: (processFiles controllerExtract controllerSetPid
              [({} : ControllerStruct)]
              [("production.log.000003".toList, Except.ok [])]).events :=
  zero_yield_warning_needs_empty_accumulation controllerExtract controllerSetPid
    [({} : ControllerStruct)] ("production.log.000002".toList)
    ["line with no token".toList]
    [("production.log.000003".toList, Except.ok [])]
    (by decide) (by decide)

/-- Claim C6: when the logs directory is absent, the export call logs the
condition, raises nothing and writes no output file. -/
theorem missing_dir_returns_normally {α : Type} (className : List Char)
    (extract : List Char → Option α) (setPid : α → List Char → α)
    (namePat : List Char → Bool) (dataList : List α) :
    (export_tsv className extract setPid none namePat dataList).raised = false ∧
    (export_tsv className extract setPid none namePat dataList).output = none ∧
    LogEvent.errorDirMissing ∈
      (export_tsv className extract setPid none namePat dataList).events := by
  refine ⟨rfl, rfl, ?_⟩
  simp [export_tsv]

/-- Unfolding equation: events of a scan that starts with a readable file. -/
lemma processFiles_cons_ok_events {α : Type} (extract : List Char → Option α)
    (setPid : α → List Char → α) (dataList : List α) (nm : List Char)
    (lines : List (List Char)) (rest : List DirEntry) :
    (processFiles extract setPid dataList ((nm, Except.ok lines) :: rest)).events
      = LogEvent.infoStartFile nm ::
          ((if (convert_log_into_array extract setPid dataList lines).isEmpty
            then [LogEvent.warnNoData nm] else [])
           ++ (processFiles extract setPid
                (convert_log_into_array extract setPid dataList lines) rest).events) := rfl

/-- Unfolding equation: raised flag of a scan that starts with a readable
file. -/
lemma processFiles_cons_ok_raised {α : Type} (extract : List Char → Option α)
    (setPid : α → List Char → α) (dataList : List α) (nm : List Char)
    (lines : List (List Char)) (rest : List DirEntry) :
    (processFiles extract setPid dataList ((nm, Except.ok lines) :: rest)).raised
      = (processFiles extract setPid
          (convert_log_into_array extract setPid dataList lines) rest).raised := rfl

/-- Scanning a listing whose faulty entry sits after files that all open
correctly: the exception is raised, the open fault is logged, and no file
after the faulty one is ever started. -/
lemma processFiles_open_fault {α : Type} (extract : List Char → Option α)
    (setPid : α → List Char → α) :
    ∀ (pre : List DirEntry) (dataList : List α) (name : List Char)
      (post : List DirEntry), (∀ e ∈ pre, entryOk e = true) →
      (processFiles extract setPid dataList
          (pre ++ (name, Except.error ()) :: post)).raised = true ∧
      LogEvent.errorOpenFile name ∈
        (processFiles extract setPid dataList
          (pre ++ (name, Except.error ()) :: post)).events ∧
      ∀ g : List Char, (∀ e ∈ pre, g ≠ e.1) → g ≠ name →
        LogEvent.infoStartFile g ∉
          (processFiles extract setPid dataList
            (pre ++ (name, Except.error ()) :: post)).events := by
  intro pre
  induction pre with
  | nil =>
    intro dataList name post hok
    refine ⟨rfl, by simp [processFiles], ?_⟩
    intro g hpre hg
    simp [processFiles, hg]
  | cons e pre ih =>
    intro dataList name post hok
    obtain ⟨nm, content⟩ := e
    cases content with
    | error u =>
      have hbad := hok (nm, Except.error u) (by simp)
      simp [entryOk] at hbad
    | ok lines =>
      have hrest : ∀ x ∈ pre, entryOk x = true := by
        intro x hx
        exact hok x (by simp [hx])
      obtain ⟨ih1, ih2, ih3⟩ :=
        ih (convert_log_into_array extract setPid dataList lines) name post hrest
      refine ⟨?_, ?_, ?_⟩
      · rw [List.cons_append, processFiles_cons_ok_raised]
        exact ih1
      · rw [List.cons_append, processFiles_cons_ok_events]
        exact List.mem_cons_of_mem _ (List.mem_append_right _ ih2)
      · intro g hpre hg
        have hgnm : g ≠ nm := hpre (nm, Except.ok lines) (by simp)
        have hnotin := ih3 g (fun x hx => hpre x (by simp [hx])) hg
        rw [List.cons_append, processFiles_cons_ok_events]
        intro hmem
        rcases List.mem_cons.mp hmem with h | h
        · exact hgnm (LogEvent.infoStartFile.inj h)
        · rcases List.mem_append.mp h with h | h
          · by_cases hc : (convert_log_into_array extract setPid dataList lines).isEmpty
            · rw [if_pos hc] at h
              rcases List.mem_cons.mp h with h | h
              · exact LogEvent.noConfusion h
              · exact absurd h (List.not_mem_nil _)
            · rw [if_neg hc] at h
              exact absurd h (List.not_mem_nil _)
          · exact hnotin h

/-- Claim C7: an I/O fault while opening a selected file is fatal to the
export call — the fault is logged, the exception reaches the caller, no
later file is started, and no TSV output is produced. -/
theorem open_fault_aborts_export {α : Type} (className : List Char)
    (extract : List Char → Option α) (setPid : α → List Char → α)
    (pre : List DirEntry) (name : List Char) (post : List DirEntry)
    (namePat : List Char → Bool) (dataList : List α)
    (hok : ∀ e ∈ pre, entryOk e = true)
    (hsel : ∀ e ∈ pre ++ (name, Except.error ()) :: post, namePat e.1 = true) :
    (export_tsv className extract setPid
        (some (pre ++ (name, Except.error ()) :: post)) namePat dataList).raised
      = true ∧
    (export_tsv className extract setPid
        (some (pre ++ (name, Except.error ()) :: post)) namePat dataList).output
      = none ∧
    LogEvent.errorOpenFile name ∈
      (export_tsv className extract setPid
        (some (pre ++ (name, Except.error ()) :: post)) namePat dataList).events ∧
    ∀ g : List Char, (∀ e ∈ pre, g ≠ e.1) → g ≠ name →
      LogEvent.infoStartFile g ∉
        (export_tsv className extract setPid
          (some (pre ++ (name, Except.error ()) :: post)) namePat dataList).events := by
  have hfilter : (pre ++ (name, Except.error ()) :: post).filter (fun e => namePat e.1)
      = pre ++ (name, Except.error ()) :: post :=
    List.filter_eq_self.mpr (by simpa using hsel)
  obtain ⟨h1, h2, h3⟩ := processFiles_open_fault extract setPid pre dataList name post hok
  have hout : export_tsv className extract setPid
      (some (pre ++ (name, Except.error ()) :: post)) namePat dataList
      = ⟨(processFiles extract setPid dataList
            (pre ++ (name, Except.error ()) :: post)).events, none, true,
         (processFiles extract setPid dataList
            (pre ++ (name, Except.error ()) :: post)).data⟩ := by
    simp only [export_tsv]
    rw [hfilter, h1]
    rfl
  rw [hout]
  exact ⟨rfl, rfl, h2, fun g hp hg => h3 g hp hg⟩

/-- Concrete instance of C7: the second of three matching files cannot be
opened; the run raises, the third file is never started and no output is
written. -/
theorem open_fault_aborts_export_witness :
    (export_tsv ("Controller".toList) controllerExtract controllerSetPid
        (some ([("production.log.000001".toList,
                 Except.ok ["[App #1] HomeController#index".toList])]
          ++ ("production.log.000002".toList,
              (Except.error () : Except Unit (List (List Char))))
            :: [("production.log.000003".toList, Except.ok [])]))
        (fun _ => true) []).raised = true ∧
    (export_tsv ("Controller".toList) controllerExtract controllerSetPid
        (some ([("production.log.000001".toList,
                 Except.ok ["[App #1] HomeController#index".toList])]
          ++ ("production.log.000002".toList,
              (Except.error () : Except Unit (List (List Char))))
            :: [("production.log.000003".toList, Except.ok [])]))
        (fun _ => true) []).output = none ∧
    LogEvent.errorOpenFile ("production.log.000002".toList) ∈
      (export_tsv ("Controller".toList) controllerExtract controllerSetPid
        (some ([("production.log.000001".toList,
                 Except.ok ["[App #1] HomeController#index".toList])]
          ++ ("production.log.000002".toList,
              (Except.error () : Except Unit (List (List Char))))
            :: [("production.log.000003".toList, Except.ok [])]))
        (fun _ => true) []).events ∧
    ∀ g : List Char,
      (∀ e ∈ ([("production.log.000001".toList,
               Except.ok ["[App #1] HomeController#index".toList])] : List DirEntry),
        g ≠ e.1) →
      g ≠ "production.log.000002".toList →
      LogEvent.infoStartFile g ∉
        (export_tsv ("Controller".toList) controllerExtract controllerSetPid
          (some ([("production.log.000001".toList,
                   Except.ok ["[App #1] HomeController#index".toList])]
            ++ ("production.log.000002".toList,
                (Except.error () : Except Unit (List (List Char))))
              :: [("production.log.000003".toList, Except.ok [])]))
          (fun _ => true) []).events :=
  open_fault_aborts_export ("Controller".toList) controllerExtract controllerSetPid
    [("production.log.000001".toList,
      Except.ok ["[App #1] HomeController#index".toList])]
    ("production.log.000002".toList)
    [("production.log.000003".toList, Except.ok [])]
    (fun _ => true) [] (by decide) (by decide)

/-- A listing whose selected entries all open correctly never raises. -/
lemma processFiles_ok_not_raised {α : Type} (extract : List Char → Option α)
    (setPid : α → List Char → α) :
    ∀ (entries : List DirEntry) (dataList : List α),
      (∀ e ∈ entries, entryOk e = true) →
      (processFiles extract setPid dataList entries).raised = false := by
  intro entries
  induction entries with
  | nil => intro dl _; rfl
  | cons e rest ih =>
    intro dl h
    obtain ⟨nm, content⟩ := e
    cases content with
    | error u =>
      have hbad := h (nm, Except.error u) (by simp)
      simp [entryOk] at hbad
    | ok lines =>
      rw [processFiles_cons_ok_raised]
      exact ih _ (fun x hx => h x (by simp [hx]))

/-- Unfolding equation for a non-raising export: the outcome is decided by
the emptiness of the accumulated record set. -/
lemma export_tsv_not_raised {α : Type} (className : List Char)
    (extract : List Char → Option α) (setPid : α → List Char → α)
    (entries : List DirEntry) (namePat : List Char → Bool) (dataList : List α)
    (h : (processFiles extract setPid dataList
        (entries.filter (fun e => namePat e.1))).raised = false) :
    export_tsv className extract setPid (some entries) namePat dataList
      = if (processFiles extract setPid dataList
            (entries.filter (fun e => namePat e.1))).data.isEmpty
        then ⟨(processFiles extract setPid dataList
                (entries.filter (fun e => namePat e.1))).events
                ++ [LogEvent.warnNoExport], none, false,
              (processFiles extract setPid dataList
                (entries.filter (fun e => namePat e.1))).data⟩
        else ⟨(processFiles extract setPid dataList
                (entries.filter (fun e => namePat e.1))).events
                ++ [LogEvent.infoExported
                      (className.map Char.toLower ++ ".tsv".toList)],
              some (className.map Char.toLower ++ ".tsv".toList,
                    (processFiles extract setPid dataList
                      (entries.filter (fun e => namePat e.1))).data), false,
              (processFiles extract setPid dataList
                (entries.filter (fun e => namePat e.1))).data⟩ := by
  simp only [export_tsv]
  rw [h]
  simp

/-- Claim C8: after a run in which every selected file opened, the TSV
named after the lowercased extractor identity is written if and only if the
accumulated record set is non-empty, its rows being exactly that set in
accumulation order; on an empty set a warning is logged and nothing is
written. -/
theorem tsv_written_iff_nonempty {α : Type} (className : List Char)
    (extract : List Char → Option α) (setPid : α → List Char → α)
    (entries : List DirEntry) (namePat : List Char → Bool)
    (hok : ∀ e ∈ entries, namePat e.1 = true → entryOk e = true) :
    ((export_tsv className extract setPid (some entries) namePat
          ([] : List α)).output
        = some (className.map Char.toLower ++ ".tsv".toList,
            (export_tsv className extract setPid (some entries) namePat
              ([] : List α)).finalData)
      ↔ (export_tsv className extract setPid (some entries) namePat
          ([] : List α)).finalData ≠ []) ∧
    ((export_tsv className extract setPid (some entries) namePat
          ([] : List α)).finalData = [] →
      (export_tsv className extract setPid (some entries) namePat
          ([] : List α)).output = none ∧
      LogEvent.warnNoExport ∈
        (export_tsv className extract setPid (some entries) namePat
          ([] : List α)).events) := by
  have hsel : ∀ e ∈ entries.filter (fun e => namePat e.1), entryOk e = true := by
    intro e he
    rw [List.mem_filter] at he
    exact hok e he.1 (by simpa using he.2)
  have hraise := processFiles_ok_not_raised extract setPid
    (entries.filter (fun e => namePat e.1)) ([] : List α) hsel
  rw [export_tsv_not_raised className extract setPid entries namePat ([] : List α) hraise]
  by_cases hdat : (processFiles extract setPid ([] : List α)
      (entries.filter (fun e => namePat e.1))).data.isEmpty
  · rw [if_pos hdat]
    have hnil : (processFiles extract setPid ([] : List α)
        (entries.filter (fun e => namePat e.1))).data = [] :=
      List.isEmpty_iff.mp hdat
    refine ⟨⟨fun hsome => absurd hsome (by simp), fun hne => absurd hnil hne⟩, ?_⟩
    intro _
    exact ⟨rfl, by simp⟩
  · rw [if_neg hdat]
    have hne : (processFiles extract setPid ([] : List α)
        (entries.filter (fun e => namePat e.1))).data ≠ [] := by
      simpa [List.isEmpty_iff] using hdat
    exact ⟨⟨fun _ => hne, fun _ => rfl⟩, fun h0 => absurd h0 hne⟩

/-- Concrete instance of C8 on a one-file directory whose single line
yields a record. -/
theorem tsv_written_iff_nonempty_witness :
    ((export_tsv ("Controller".toList) controllerExtract controllerSetPid
        (some [("production.log.000001".toList,
                Except.ok ["[App #42] HomeController#index".toList])])
        (fun _ => true) ([] : List ControllerStruct)).output
      = some (("Controller".toList).map Char.toLower ++ ".tsv".toList,
          (export_tsv ("Controller".toList) controllerExtract controllerSetPid
            (some [("production.log.000001".toList,
                    Except.ok ["[App #42] HomeController#index".toList])])
            (fun _ => true) ([] : List ControllerStruct)).finalData)
      ↔ (export_tsv ("Controller".toList) controllerExtract controllerSetPid
          (some [("production.log.000001".toList,
                  Except.ok ["[App #42] HomeController#index".toList])])
          (fun _ => true) ([] : List ControllerStruct)).finalData ≠ []) ∧
    ((export_tsv ("Controller".toList) controllerExtract controllerSetPid
        (some [("production.log.000001".toList,
                Except.ok ["[App #42] HomeController#index".toList])])
        (fun _ => true) ([] : List ControllerStruct)).finalData = [] →
      (export_tsv ("Controller".toList) controllerExtract controllerSetPid
          (some [("production.log.000001".toList,
                  Except.ok ["[App #42] HomeController#index".toList])])
          (fun _ => true) ([] : List ControllerStruct)).output = none ∧
      LogEvent.warnNoExport ∈
        (export_tsv ("Controller".toList) controllerExtract controllerSetPid
          (some [("production.log.000001".toList,
                  Except.ok ["[App #42] HomeController#index".toList])])
          (fun _ => true) ([] : List ControllerStruct)).events) :=
  tsv_written_iff_nonempty ("Controller".toList) controllerExtract controllerSetPid
    [("production.log.000001".toList,
      Except.ok ["[App #42] HomeController#index".toList])]
    (fun _ => true) (by decide)

/-! ### Determinism of the export and the empty Model alternation -/

/-- Claim C9: two export runs, each from a freshly constructed extractor
(empty `data_list`, as `__init__` sets it), over the same directory state
and the same name filter, produce byte-identical TSV content. -/
theorem export_idempotent_bytes {α : Type} (className : List Char)
    (extract : List Char → Option α) (setPid : α → List Char → α)
    (logsDir : Option (List DirEntry)) (namePat : List Char → Bool)
    (header : List Char) (serialize : α → List Char)
    (r1 r2 : ExportOutcome α)
    (h1 : r1 = export_tsv className extract setPid logsDir namePat [])
    (h2 : r2 = export_tsv className extract setPid logsDir namePat []) :
    r1.output.map (fun o => tsvContent header serialize o.2)
      = r2.output.map (fun o => tsvContent header serialize o.2) := by
  rw [h1, h2]

/-- Concrete instance of C9 on a one-file Controller directory. -/
theorem export_idempotent_bytes_witness :
    (export_tsv ("Controller".toList) controllerExtract controllerSetPid
        (some [("production.log.000001".toList,
                Except.ok ["[App #42] HomeController#index".toList])])
        (fun _ => true) []).output.map
      (fun o => tsvContent controllerHeader controllerRow o.2)
      = (export_tsv ("Controller".toList) controllerExtract controllerSetPid
          (some [("production.log.000001".toList,
                  Except.ok ["[App #42] HomeController#index".toList])])
          (fun _ => true) []).output.map
        (fun o => tsvContent controllerHeader controllerRow o.2) :=
  export_idempotent_bytes ("Controller".toList) controllerExtract controllerSetPid
    (some [("production.log.000001".toList,
            Except.ok ["[App #42] HomeController#index".toList])])
    (fun _ => true) controllerHeader controllerRow _ _ rfl rfl

/-- The empty pattern (the single empty alternative `'|'.join([])` compiles
to) matches at position zero of every string, with the empty string as the
matched text. -/
lemma altSearch_empty_pattern : ∀ (line : List Char), altSearch [[]] line = some [] := by
  intro line
  cases line with
  | nil => rfl
  | cons c rest => rfl

/-- Claim C10: when the injected entity-name list leaves nothing after
exclusion filtering, the compiled alternation is the empty pattern and
matches every string, so every debug line carrying a PID token yields a
record with an empty `class_name`. -/
theorem empty_model_alternation_matches_all (tableNames : List (List Char))
    (hempty : modelname_into_regexp tableNames = [])
    (line : List Char) (hdebug : containsSub ("DEBUG".toList) line = true)
    (p : List Char) (hpid : pidSearch line = some p) :
    init_entity (modelExtract tableNames) modelSetPid line
      = some { pid := some p, class_name := some [] } := by
  have halt : altSearch (compiledAlternatives (modelname_into_regexp tableNames)) line
      = some [] := by
    rw [hempty]
    show altSearch (if ([] : List (List Char)).isEmpty then [[]] else []) line = some []
    rw [show (([] : List (List Char)).isEmpty) = true from rfl, if_pos rfl]
    exact altSearch_empty_pattern line
  unfold init_entity
  rw [hpid]
  unfold modelExtract
  rw [hdebug, halt]
  rfl

/-- Concrete instance of C10: the injected names are exactly the two
always-excluded ones, the line is a debug line with a PID token. -/
theorem empty_model_alternation_matches_all_witness :
    init_entity
        (modelExtract ["ArInternalMetadata".toList, "SchemaMigration".toList])
        modelSetPid ("DEBUG User Load [Worker #9]".toList)
      = some { pid := some ("#9".toList), class_name := some [] } :=
  empty_model_alternation_matches_all
    ["ArInternalMetadata".toList, "SchemaMigration".toList] (by decide)
    ("DEBUG User Load [Worker #9]".toList) (by decide)
    ("#9".toList) (by decide)
